import Mathlib

/-!
Shallow embedding of the interactive session engine of the mellanox-updater
repository, together with theorems settling the frozen claims about it.

Strings are modelled as lists of characters (`Str`).  Python's substring
primitives (`in`, `find`, `rfind`, `lower`, `upper`, `strip`) are modelled
over `Str`.  Embedded components:

* `ConditionalProcessor` state machine      (src/core/conditional_logic.py)
* `ConfigManager.filter_login_steps`        (src/config/config_manager.py)
* `SerialHandler.wait_for_output`           (src/core/serial_handler.py)
* `PaginationHandler.check_and_respond`     (src/utils/pagination.py)

Python's `re.search` over the pagination alternation is embedded by a small
token-level matcher (`matchFrom`, `regexSearch`) covering exactly the
constructs the default pattern list uses (case-insensitive literals, `\s*`,
`\s+`, greedy `.*`), with leftmost-position / first-alternative selection as
in CPython.  The regex matching used by conditional `*_regex` kinds is kept
abstract as a parameter, since those claims do not depend on it.
-/

/-- Python strings, modelled as lists of characters. -/
abbrev Str := List Char

/-- Coerce a Lean string literal to the model type. -/
def str (s : String) : Str := s.data

/-- Python `str.lower` (ASCII-faithful). -/
def toLowerStr (s : Str) : Str := s.map Char.toLower

/-- Python `str.upper` (ASCII-faithful). -/
def toUpperStr (s : Str) : Str := s.map Char.toUpper

/-- All start indices (in ascending order) at which `p` occurs in `s`;
Python counts an occurrence of the empty string at every position,
including `s.length`, hence the `s.length + 1` range. -/
def occ (p s : Str) : List Nat :=
  (List.range (s.length + 1)).filter (fun i => p.isPrefixOf (s.drop i))

/-- Python `p in s` (substring test). -/
def pyContains (p s : Str) : Bool := !(occ p s).isEmpty

/-- Python `s.find(p)` under the guarantee that `p` occurs in `s`
(first occurrence start index). -/
def pyFirst (p s : Str) : Nat := (occ p s).head?.getD 0

/-- Python `s.rfind(p)` under the guarantee that `p` occurs in `s`
(last occurrence start index). -/
def pyLast (p s : Str) : Nat := (occ p s).getLast?.getD 0

/-- Python `s.find(p)` with the `-1` not-found sentinel. -/
def pyFindInt (p s : Str) : Int :=
  match (occ p s).head? with
  | some i => (i : Int)
  | none => -1

/-- Python `s.rfind(p)` with the `-1` not-found sentinel. -/
def pyRfindInt (p s : Str) : Int :=
  match (occ p s).getLast? with
  | some i => (i : Int)
  | none => -1

/-- Python `\s` / `str.strip` whitespace (ASCII subset). -/
def isSpaceChar (c : Char) : Bool :=
  (c == ' ') || (c == '\t') || (c == '\n') || (c == '\r') || (c == '\x0b') || (c == '\x0c')

/-- Python `str.strip()`. -/
def pyStrip (s : Str) : Str :=
  ((s.dropWhile isSpaceChar).reverse.dropWhile isSpaceChar).reverse

/-! ## ConditionalProcessor  (src/core/conditional_logic.py) -/

/-- The `condition_type` field of `ConditionalState` ('if' / 'elif' / 'else'). -/
inductive CondType where
  | cIf
  | cElif
  | cElse
deriving DecidableEq

/-- `ConditionalState`: one frame of the conditional stack
(`condition_type`, `condition_met`, `executed`). -/
structure ConditionalState where
  conditionType : CondType
  conditionMet : Bool
  executed : Bool
deriving DecidableEq

/-- `ConditionalProcessor` state: `last_command_output` and `condition_stack`.
The head of the Lean list is the top of the Python stack (its last element). -/
structure CondProc where
  lastCommandOutput : Str
  conditionStack : List ConditionalState
deriving DecidableEq

/-- `ConditionalProcessor._evaluate_condition`.  `rs pat text` abstracts
`re.search(pat, text)`: `some b` is a completed search with result `b`,
`none` models `re.error` being raised (caught, reported, result `False`).
The leading guard mirrors `if not self.last_command_output: return False`. -/
def evaluateCondition (rs : Str → Str → Option Bool) (conditionCmd : String)
    (searchText lastOutput : Str) : Bool :=
  if lastOutput = [] then false
  else if conditionCmd = "if_contains" then pyContains searchText lastOutput
  else if conditionCmd = "if_not_contains" then !pyContains searchText lastOutput
  else if conditionCmd = "elif_contains" then pyContains searchText lastOutput
  else if conditionCmd = "elif_not_contains" then !pyContains searchText lastOutput
  else if conditionCmd = "if_contains_i" then
    pyContains (toLowerStr searchText) (toLowerStr lastOutput)
  else if conditionCmd = "if_not_contains_i" then
    !pyContains (toLowerStr searchText) (toLowerStr lastOutput)
  else if conditionCmd = "elif_contains_i" then
    pyContains (toLowerStr searchText) (toLowerStr lastOutput)
  else if conditionCmd = "elif_not_contains_i" then
    !pyContains (toLowerStr searchText) (toLowerStr lastOutput)
  else if conditionCmd = "if_regex" ∨ conditionCmd = "elif_regex" then
    match rs searchText lastOutput with
    | some b => b
    | none => false
  else if conditionCmd = "if_not_regex" ∨ conditionCmd = "elif_not_regex" then
    match rs searchText lastOutput with
    | some b => !b
    | none => false
  else false

/-- `ConditionalProcessor.should_execute_command`. -/
def shouldExecuteCommand (p : CondProc) : Bool :=
  match p.conditionStack with
  | [] => true
  | cur :: _ =>
    if (cur.conditionType = .cIf ∨ cur.conditionType = .cElif) ∧ cur.conditionMet then true
    else if cur.conditionType = .cElse ∧ cur.executed = false then true
    else false

/-- `ConditionalProcessor.process_if_command`. -/
def processIfCommand (rs : Str → Str → Option Bool) (conditionCmd : String)
    (searchText : Str) (p : CondProc) : CondProc :=
  let met := evaluateCondition rs conditionCmd searchText p.lastCommandOutput
  { p with conditionStack := ⟨.cIf, met, met⟩ :: p.conditionStack }

/-- `ConditionalProcessor.process_elif_command`.  With an empty stack or a
top frame whose type is not if/elif, the error is logged and the state is
returned unchanged. -/
def processElifCommand (rs : Str → Str → Option Bool) (conditionCmd : String)
    (searchText : Str) (p : CondProc) : CondProc :=
  match p.conditionStack with
  | [] => p
  | cur :: rest =>
    if cur.conditionType = .cElse then p
    else if cur.executed = false then
      let met := evaluateCondition rs conditionCmd searchText p.lastCommandOutput
      { p with conditionStack := ⟨.cElif, met, met⟩ :: rest }
    else
      { p with conditionStack := ⟨.cElif, false, cur.executed⟩ :: rest }

/-- `ConditionalProcessor.process_else_command`. -/
def processElseCommand (p : CondProc) : CondProc :=
  match p.conditionStack with
  | [] => p
  | cur :: rest =>
    if cur.conditionType = .cElse then p
    else { p with conditionStack := ⟨.cElse, !cur.executed, cur.executed⟩ :: rest }

/-- `ConditionalProcessor.process_endif_command`. -/
def processEndifCommand (p : CondProc) : CondProc :=
  match p.conditionStack with
  | [] => p
  | _ :: rest => { p with conditionStack := rest }

/-- A concrete regex-search stand-in for instantiating theorems (its value
is irrelevant to every claim that uses it). -/
def rsNone : Str → Str → Option Bool := fun _ _ => none

/-! ## ConfigManager.filter_login_steps  (src/config/config_manager.py) -/

/-- `PlaybookCommand` (the fields `filter_login_steps` reads; `wait_timeout`
and `delay` are carried by the source NamedTuple but never inspected by the
filter, so they are omitted here). -/
structure PlaybookCommand where
  commandType : String
  command : Str
  expectedText : Option Str
deriving DecidableEq

/-- `login_keywords` from `filter_login_steps`. -/
def loginKeywords : List Str :=
  [str "login:", str "username:", str "user:", str "password:", str "admin", str "enable"]

/-- `common_login_cmds` from `filter_login_steps`. -/
def commonLoginCmds : List Str :=
  [str "admin", str "enable", str "login", str "su"]

/-- The operational-command markers of `filter_login_steps`. -/
def opMarkers : List Str :=
  [str "show", str "config", str "display", str "get", str "set"]

/-- One iteration of the `filter_login_steps` walk: state is
`(in_login_sequence, filtered_commands)`. -/
def filterStep (st : Bool × List PlaybookCommand) (cmd : PlaybookCommand) :
    Bool × List PlaybookCommand :=
  let inLogin := st.1
  let acc := st.2
  if inLogin then
    -- classification by command type
    let classif : Bool × Bool :=
      if cmd.commandType = "wait_for_output" then
        match cmd.expectedText with
        | some t =>
          if t ≠ [] then
            let waitValueLower := pyStrip (toLowerStr t)
            if loginKeywords.any (fun k => pyContains k waitValueLower) then (true, inLogin)
            else if waitValueLower = str "prompt" ∨ waitValueLower = str ">" ∨
                waitValueLower = str "#" ∨ waitValueLower = str "$" then (true, inLogin)
            else (false, inLogin)
          else (false, inLogin)
        | none => (false, inLogin)
      else if cmd.commandType = "send_only" then
        if cmd.command ≠ [] then
          let sendValueLower := pyStrip (toLowerStr cmd.command)
          let isL : Bool :=
            if loginKeywords.any (fun k => pyContains k sendValueLower) then true
            else if commonLoginCmds.contains sendValueLower then true
            else if (pyStrip cmd.command).length < 20 ∧
                (opMarkers.any (fun k => pyContains k (toLowerStr cmd.command))) = false then true
            else false
          -- "If we see actual configuration commands, we're past login"
          if opMarkers.any (fun k => pyContains k (toLowerStr cmd.command)) then (false, false)
          else (isL, inLogin)
        else (false, inLogin)
      else (false, inLogin)
    -- special handling for wait_for_output steps that carry a command
    let final : Bool × Bool :=
      if cmd.commandType = "wait_for_output" ∧ cmd.command ≠ [] ∧
          cmd.expectedText = some (str "PROMPT") then (false, false)
      else classif
    (final.2, if final.1 then acc else acc ++ [cmd])
  else
    (inLogin, acc ++ [cmd])

/-- `ConfigManager.filter_login_steps`. -/
def filterLoginSteps (commands : List PlaybookCommand) : List PlaybookCommand :=
  (commands.foldl filterStep (true, [])).2

/-- A `SEND value` playbook step as produced by `_parse_playbook_line`. -/
def sendCmd (s : String) : PlaybookCommand :=
  { commandType := "send_only", command := str s, expectedText := none }

/-- A `WAIT value` playbook step as produced by `_parse_playbook_line`. -/
def waitCmd (s : String) : PlaybookCommand :=
  { commandType := "wait_for_output", command := [], expectedText := some (str s) }

/-- A bare-command playbook step (parser default branch): send the line and
wait for the `PROMPT` sentinel. -/
def bareCmd (s : String) : PlaybookCommand :=
  { commandType := "wait_for_output", command := str s, expectedText := some (str "PROMPT") }

/-! ## SerialHandler.wait_for_output  (src/core/serial_handler.py) -/

/-- The `(success, captured_output)` pair returned by `wait_for_output`,
together with the `full_output_buffer` left behind for the next wait. -/
structure WaitResult where
  found : Bool
  captured : Str
  buffer : Str
deriving DecidableEq

/-- Resolution of the `PROMPT` sentinel at the top of `wait_for_output`
(`if expected_text.upper() == 'PROMPT': ...`); a `some []` detected prompt is
falsy in Python so it also falls back to the prompt symbol. -/
def resolveExpected (expected : Str) (detectedPrompt : Option Str) (promptSymbol : Str) : Str :=
  if toUpperStr expected = str "PROMPT" then
    match detectedPrompt with
    | some d => if d = [] then promptSymbol else d
    | none => promptSymbol
  else expected

/-- `actual_expected_text == '>' or actual_expected_text == detected_prompt`:
the condition under which `wait_for_output` switches from first-occurrence
to last-occurrence matching. -/
def isPromptExpected (actual : Str) (detectedPrompt : Option Str) : Bool :=
  (actual = str ">" ∨ detectedPrompt = some actual : Bool)

/-- The polling loop of `wait_for_output`.  One list element of `chunks` is
one non-empty `ser.read(...)` delivery; exhausting the list is the timeout.
`pagFires buffer` abstracts the boolean outcome of
`pagination_handler.check_and_respond(ser, buffer)` (when it fires the loop
`continue`s without testing for the expected text).  Timing (adaptive
sleeps) has no observable effect on the returned values and is not
modelled. -/
def waitLoop (actual : Str) (detectedPrompt : Option Str) (checkExisting pag : Bool)
    (pagFires : Str → Bool) : Str → Str → List Str → WaitResult
  | buffer, newOutput, [] =>
    { found := false
      captured := if newOutput ≠ [] then newOutput else buffer
      buffer := [] }
  | buffer, newOutput, c :: rest =>
    let newOutput' := newOutput ++ c
    let buffer' := buffer ++ c
    if pag && pagFires buffer' then
      waitLoop actual detectedPrompt checkExisting pag pagFires buffer' newOutput' rest
    else
      let searchIn := if checkExisting then buffer' else newOutput'
      if pyContains actual searchIn then
        let matchIndex :=
          if isPromptExpected actual detectedPrompt then pyLast actual searchIn
          else pyFirst actual searchIn
        let endOfMatch := matchIndex + actual.length
        if checkExisting then
          { found := true
            captured := buffer'.take endOfMatch
            buffer := buffer'.drop endOfMatch }
        else
          let consumedFromFull : Int :=
            (if isPromptExpected actual detectedPrompt then pyRfindInt actual buffer'
             else pyFindInt actual buffer') + actual.length
          { found := true
            captured := newOutput'.take endOfMatch
            buffer := if 0 < consumedFromFull then buffer'.drop consumedFromFull.toNat else buffer' }
      else
        waitLoop actual detectedPrompt checkExisting pag pagFires buffer' newOutput' rest

/-- `SerialHandler.wait_for_output`.  `handlePagination` is the argument,
`pagEnabled` is `pagination_handler.is_enabled()`, `buffer` is the
pre-existing `full_output_buffer`, `chunks` the serial deliveries available
before the timeout. -/
def waitForOutput (expected : Str) (detectedPrompt : Option Str) (promptSymbol : Str)
    (checkExisting handlePagination pagEnabled : Bool) (pagFires : Str → Bool)
    (buffer : Str) (chunks : List Str) : WaitResult :=
  let actual := resolveExpected expected detectedPrompt promptSymbol
  let pag := handlePagination && pagEnabled
  if checkExisting && pyContains (toLowerStr actual) (toLowerStr buffer) then
    -- pre-existing-buffer fast path: case-insensitive, first occurrence
    let matchIndex := pyFirst (toLowerStr actual) (toLowerStr buffer)
    let endOfMatch := matchIndex + actual.length
    { found := true
      captured := buffer.take endOfMatch
      buffer := buffer.drop endOfMatch }
  else
    waitLoop actual detectedPrompt checkExisting pag pagFires buffer [] chunks

/-! ## PaginationHandler  (src/utils/pagination.py)

The default pattern list uses only case-insensitive literals, `\s*`, `\s+`
and greedy `.*` (no DOTALL, so `.` excludes the newline), which the token
matcher below implements with CPython's backtracking priorities: a greedy
quantifier tries the longest extent first, alternatives are tried in order
at each position, positions left to right. -/

/-- One regex token of a pagination pattern. -/
inductive RTok where
  | lit (c : Char)
  | dotStar
  | wsStar
  | wsPlus

/-- Does the token sequence match a prefix of `s`?  Returns the number of
characters consumed by the (backtracking-greedy) match, as CPython would
report for `re.match` of the same pattern, `IGNORECASE`. -/
def matchFrom : List RTok → Str → Option Nat
  | [], _ => some 0
  | .lit _ :: _, [] => none
  | .lit c :: ts, x :: xs =>
    if x.toLower = c.toLower then (matchFrom ts xs).map (· + 1) else none
  | .dotStar :: ts, xs =>
    let maxTake := (xs.takeWhile (fun c => c ≠ '\n')).length
    (((List.range (maxTake + 1)).reverse).filterMap
      (fun k => (matchFrom ts (xs.drop k)).map (k + ·))).head?
  | .wsStar :: ts, xs =>
    let maxTake := (xs.takeWhile isSpaceChar).length
    (((List.range (maxTake + 1)).reverse).filterMap
      (fun k => (matchFrom ts (xs.drop k)).map (k + ·))).head?
  | .wsPlus :: ts, xs =>
    let maxTake := (xs.takeWhile isSpaceChar).length
    ((((List.range (maxTake + 1)).reverse).filter (fun k => 0 < k)).filterMap
      (fun k => (matchFrom ts (xs.drop k)).map (k + ·))).head?

/-- A pattern consisting only of literal characters. -/
def lits (s : String) : List RTok := s.data.map RTok.lit

/-- `self.default_patterns`, token-level: the thirteen default pagination
regexes of `PaginationHandler.__init__`, in source order. -/
def defaultPatterns : List (List RTok) :=
  [ lits "--More--",
    lits "--- MORE ---",
    lits "Press any key to continue",
    lits "(q)uit" ++ [.dotStar] ++ lits "more",
    lits "Continue? [y/n]",
    lits "Next page?",
    lits "--" ++ [.wsStar] ++ lits "Press" ++ [.wsPlus] ++ lits "SPACE" ++ [.wsPlus] ++
      lits "to" ++ [.wsPlus] ++ lits "continue",
    lits "(Press q to quit)",
    lits "Type <space> for more",
    lits "More (" ++ [.dotStar] ++ lits ")",
    lits "--More-- (" ++ [.dotStar] ++ lits ")",
    lits "[Press space to continue]",
    lits "Press SPACE to continue or Q to quit" ]

/-- `re.search` over an alternation of patterns: leftmost matching position
wins, and at that position the first alternative (in pattern order) wins;
the result is the matched text (`match.group()`). -/
def regexSearch (pats : List (List RTok)) (s : Str) : Option Str :=
  ((List.range (s.length + 1)).filterMap (fun i =>
    (pats.filterMap (fun p => (matchFrom p (s.drop i)).map (fun m => (s.drop i).take m))).head?)).head?

/-- The response-selection of `check_and_respond` (lines 84-99): the bytes
written to the serial connection for a detected pagination prompt. -/
def paginationResponse (paginationPrompt : Str) : Str :=
  let lp := toLowerStr paginationPrompt
  if [str "space", str "continue", str "--more--", str "--- more ---"].any
      (fun kw => pyContains kw lp) then str " "
  else if pyContains (str "any key") lp then str "\n"
  else if pyContains (str "[y/n]") lp || pyContains (str "continue?") lp then str "y\n"
  else str " "

/-- The fields of `PaginationHandler` that `check_and_respond` consults. -/
structure PagState where
  enabled : Bool
  regexOk : Bool
  patterns : List (List RTok)

/-- `PaginationHandler.__init__`: `custom = some cs` models a combined
pattern list that `re.compile` accepts (with `cs` the token-level custom
patterns), `custom = none` models `re.compile` raising `re.error`, which
sets `self.pagination_regex = None` and `self.enabled = False`. -/
def pagInit (enabledArg : Bool) (custom : Option (List (List RTok))) : PagState :=
  match custom with
  | some cs => { enabled := enabledArg, regexOk := true, patterns := defaultPatterns ++ cs }
  | none => { enabled := false, regexOk := false, patterns := [] }

/-- `PaginationHandler.check_and_respond`: `some w` means the handler wrote
`w` to the transport and returned `True`; `none` means it wrote nothing and
returned `False`.  The search window is the last 200 characters. -/
def checkAndRespond (st : PagState) (outputBuffer : Str) : Option Str :=
  if !st.enabled || !st.regexOk then none
  else
    let recentOutput :=
      if outputBuffer.length > 200 then outputBuffer.drop (outputBuffer.length - 200)
      else outputBuffer
    match regexSearch st.patterns recentOutput with
    | some paginationPrompt => some (paginationResponse paginationPrompt)
    | none => none

/-! ## Helper lemmas about the Python substring primitives -/

theorem pyContains_iff {p s : Str} : pyContains p s = true ↔ p <:+: s := by
  unfold pyContains occ
  constructor
  · intro h
    rw [Bool.not_eq_true'] at h
    have hne : (List.range (s.length + 1)).filter (fun i => p.isPrefixOf (s.drop i)) ≠ [] := by
      intro hnil
      rw [hnil] at h
      simp at h
    obtain ⟨i, hi⟩ := List.exists_mem_of_ne_nil _ hne
    obtain ⟨-, hpref⟩ := List.mem_filter.mp hi
    have hp : p <+: s.drop i := List.isPrefixOf_iff_prefix.mp hpref
    exact hp.isInfix.trans (List.drop_suffix i s).isInfix
  · rintro ⟨u, v, rfl⟩
    have hmem : u.length ∈
        (List.range ((u ++ p ++ v).length + 1)).filter (fun i => p.isPrefixOf ((u ++ p ++ v).drop i)) := by
      rw [List.mem_filter]
      refine ⟨List.mem_range.mpr ?_, ?_⟩
      · simp
        omega
      · rw [List.append_assoc, List.drop_left]
        exact List.isPrefixOf_iff_prefix.mpr (List.prefix_append p v)
    have hne := List.ne_nil_of_mem hmem
    rw [Bool.not_eq_true']
    simpa [List.isEmpty_iff] using hne

theorem pyContains_mono {p s t : Str} (h : pyContains p s = true) (hst : s <:+: t) :
    pyContains p t = true :=
  pyContains_iff.mpr ((pyContains_iff.mp h).trans hst)

theorem pyContains_append_right {p s : Str} (t : Str) (h : pyContains p s = true) :
    pyContains p (s ++ t) = true :=
  pyContains_mono h ⟨[], t, by simp⟩

theorem pyContains_append_left {p t : Str} (s : Str) (h : pyContains p t = true) :
    pyContains p (s ++ t) = true :=
  pyContains_mono h ⟨s, [], by simp⟩

theorem pyContains_toLower {p s : Str} (h : pyContains p s = true) :
    pyContains (toLowerStr p) (toLowerStr s) = true := by
  obtain ⟨u, v, rfl⟩ := pyContains_iff.mp h
  refine pyContains_iff.mpr ⟨toLowerStr u, toLowerStr v, ?_⟩
  simp [toLowerStr]

theorem toLowerStr_append (a b : Str) :
    toLowerStr (a ++ b) = toLowerStr a ++ toLowerStr b := by
  simp [toLowerStr]

theorem occ_ne_nil_of_contains {p s : Str} (h : pyContains p s = true) : occ p s ≠ [] := by
  intro hnil
  rw [pyContains, hnil] at h
  simp at h

theorem pyFindInt_of_contains {p s : Str} (h : pyContains p s = true) :
    pyFindInt p s = (((occ p s).head?.getD 0 : Nat) : Int) := by
  unfold pyFindInt
  cases hh : (occ p s).head? with
  | none => exact absurd (List.head?_eq_none_iff.mp hh) (occ_ne_nil_of_contains h)
  | some i => simp [hh]

theorem pyRfindInt_of_contains {p s : Str} (h : pyContains p s = true) :
    pyRfindInt p s = (((occ p s).getLast?.getD 0 : Nat) : Int) := by
  unfold pyRfindInt
  cases hh : (occ p s).getLast? with
  | none => exact absurd (List.getLast?_eq_none_iff.mp hh) (occ_ne_nil_of_contains h)
  | some i => simp [hh]

/-! ## Claim C5 -/

/-- C5 counterexample: the claim says a `not_contains` condition over empty
output evaluates true (normal set semantics), but `_evaluate_condition`
returns `False` for every kind as soon as `last_command_output` is empty.
Here `if_not_contains "x"` over empty output yields `false`, although `"x"`
is indeed not contained in the empty output. -/
theorem evaluateCondition_empty_not_contains_cex :
    evaluateCondition rsNone "if_not_contains" (str "x") [] = false ∧
    pyContains (str "x") [] = false := by
  constructor
  · rfl
  · rfl

/-- C5 (amended): evaluating any condition kind against empty captured
output yields `false` — including the `not_contains` kinds, because of the
early `if not self.last_command_output: return False` guard. -/
theorem evaluateCondition_empty_output_false (rs : Str → Str → Option Bool)
    (conditionCmd : String) (searchText : Str) :
    evaluateCondition rs conditionCmd searchText [] = false := by
  simp [evaluateCondition]

/-! ## Claim C6 -/

/-- C6: once a branch of a conditional block has been taken
(`executed = true` on the top frame), `process_elif_command` forces
`condition_met = false` without evaluating, so no later ELIF makes
`should_execute_command` true; and concretely, with last output `"xyz"`,
`IF_CONTAINS "x"` enables execution, `IF_CONTAINS "q"` does not, and an
`ELIF_CONTAINS "y"` after the true IF never flips the branch. -/
theorem conditional_first_true_wins :
    (∀ (rs : Str → Str → Option Bool) (conditionCmd : String) (searchText out : Str)
      (k : CondType) (m : Bool) (rest : List ConditionalState),
      shouldExecuteCommand
        (processElifCommand rs conditionCmd searchText ⟨out, ⟨k, m, true⟩ :: rest⟩) = false) ∧
    shouldExecuteCommand (processIfCommand rsNone "if_contains" (str "x") ⟨str "xyz", []⟩) = true ∧
    shouldExecuteCommand (processIfCommand rsNone "if_contains" (str "q") ⟨str "xyz", []⟩) = false ∧
    shouldExecuteCommand (processElifCommand rsNone "elif_contains" (str "y")
      (processIfCommand rsNone "if_contains" (str "x") ⟨str "xyz", []⟩)) = false := by
  refine ⟨?_, by decide, by decide, by decide⟩
  intro rs conditionCmd searchText out k m rest
  cases k <;> simp [processElifCommand, shouldExecuteCommand]

/-! ## Claim C7 -/

/-- C7 counterexample: a structural error is NOT absorbed by treating the
condition as false.  `process_elif_command` on an empty stack leaves the
state unchanged, and with an empty stack `should_execute_command` is true,
so the commands guarded by the stray ELIF do execute — the mis-matched
branch is not inert. -/
theorem conditional_error_branch_not_inert_cex :
    processElifCommand rsNone "elif_contains" (str "x") ⟨str "abc", []⟩ = ⟨str "abc", []⟩ ∧
    shouldExecuteCommand
      (processElifCommand rsNone "elif_contains" (str "x") ⟨str "abc", []⟩) = true := by
  constructor
  · rfl
  · rfl

/-- C7 (amended): every structural conditional error (`process_elif` or
`process_else` with an empty stack or a top frame that is not If/Elif,
`process_endif` with an empty stack) is locally absorbed by logging and
leaving the processor state unchanged, so the run continues under the
pre-existing conditional state; in particular with an empty stack the
subsequent commands execute unconditionally. -/
theorem conditional_structural_errors_ignored :
    (∀ (rs : Str → Str → Option Bool) (conditionCmd : String) (searchText out : Str),
      processElifCommand rs conditionCmd searchText ⟨out, []⟩ = ⟨out, []⟩) ∧
    (∀ (rs : Str → Str → Option Bool) (conditionCmd : String) (searchText out : Str)
      (m e : Bool) (rest : List ConditionalState),
      processElifCommand rs conditionCmd searchText ⟨out, ⟨.cElse, m, e⟩ :: rest⟩ =
        ⟨out, ⟨.cElse, m, e⟩ :: rest⟩) ∧
    (∀ out : Str, processElseCommand ⟨out, []⟩ = ⟨out, []⟩) ∧
    (∀ (out : Str) (m e : Bool) (rest : List ConditionalState),
      processElseCommand ⟨out, ⟨.cElse, m, e⟩ :: rest⟩ = ⟨out, ⟨.cElse, m, e⟩ :: rest⟩) ∧
    (∀ out : Str, processEndifCommand ⟨out, []⟩ = ⟨out, []⟩) ∧
    (∀ out : Str, shouldExecuteCommand ⟨out, []⟩ = true) := by
  refine ⟨?_, ?_, ?_, ?_, ?_, ?_⟩ <;>
    intros <;> simp [processElifCommand, processElseCommand, processEndifCommand,
      shouldExecuteCommand]

/-! ## Claim C9 -/

/-- C9: if compiling the combined pagination regex fails at construction
time, pagination handling is disabled for the whole session: every
`check_and_respond` call returns false and writes nothing, whatever the
buffer content. -/
theorem pagination_compile_failure_disables :
    ∀ (enabledArg : Bool) (outputBuffer : Str),
      checkAndRespond (pagInit enabledArg none) outputBuffer = none := by
  intro enabledArg outputBuffer
  simp [pagInit, checkAndRespond]

/-! ## Claim C4 -/

/-- C4 counterexample: response selection is first-rule-wins on keywords,
and the first rule tests for "continue" (among others).  Both
`"Press any key to continue"` and `"Continue? [y/n]"` contain `"continue"`
case-insensitively, so `check_and_respond` writes a single space for them —
not the newline resp. `"y\n"` the claim asserts. -/
theorem checkAndRespond_keyword_cex :
    checkAndRespond (pagInit true (some [])) (str "Press any key to continue") = some (str " ") ∧
    str " " ≠ str "\n" ∧
    checkAndRespond (pagInit true (some [])) (str "Continue? [y/n]") = some (str " ") ∧
    str " " ≠ str "y\n" := by
  refine ⟨by decide, by decide, by decide, by decide⟩

/-- C4 (amended): `check_and_respond` selects its auto-response by keyword
in the matched pager prompt with first rule wins; for a buffer matching
`"--More--"` it writes a single space and returns true, and — because the
first rule already matches the keyword "continue" — it also writes a single
space for `"Press any key to continue"` and for `"Continue? [y/n]"`.
Whenever the matched prompt contains "continue" (case-insensitively), the
response is a single space. -/
theorem checkAndRespond_first_rule_wins :
    checkAndRespond (pagInit true (some [])) (str "--More--") = some (str " ") ∧
    checkAndRespond (pagInit true (some [])) (str "Press any key to continue") = some (str " ") ∧
    checkAndRespond (pagInit true (some [])) (str "Continue? [y/n]") = some (str " ") ∧
    (∀ prompt : Str, pyContains (str "continue") (toLowerStr prompt) = true →
      paginationResponse prompt = str " ") := by
  refine ⟨by decide, by decide, by decide, ?_⟩
  intro prompt h
  simp [paginationResponse, h]

/-- C4 witness: the keyword rule of `checkAndRespond_first_rule_wins`
applied to the concrete prompt `"Continue? [y/n]"`. -/
theorem checkAndRespond_first_rule_wins_witness :
    paginationResponse (str "Continue? [y/n]") = str " " :=
  checkAndRespond_first_rule_wins.2.2.2 (str "Continue? [y/n]") (by decide)

/-! ## Claims C8 and C10 -/

theorem filterStep_not_in_login (acc : List PlaybookCommand) (cmd : PlaybookCommand) :
    filterStep (false, acc) cmd = (false, acc ++ [cmd]) := by
  simp [filterStep]

theorem foldl_filterStep_not_in_login :
    ∀ (cmds acc : List PlaybookCommand),
      List.foldl filterStep (false, acc) cmds = (false, acc ++ cmds) := by
  intro cmds
  induction cmds with
  | nil => intro acc; simp
  | cons c rest ih =>
    intro acc
    rw [List.foldl_cons, filterStep_not_in_login, ih]
    simp

theorem opMarkers_contains_imp_ne_nil {c : Str}
    (h : (opMarkers.any fun k => pyContains k (toLowerStr c)) = true) : c ≠ [] := by
  rintro rfl
  simp [opMarkers, toLowerStr] at h
  rcases h with h | h | h | h | h <;> exact absurd h (by decide)

/-- C8: the login filter starts with `in_login_sequence = true`, drops login
steps while it holds, and a `Send` whose payload contains an
operational-command marker flips it to false; from then on the flag is never
set back and every step is kept in original order.  On the concrete
playbook of the claim only `SEND "show version"` survives. -/
theorem filterLoginSteps_marker_flip (cmd : PlaybookCommand) (acc : List PlaybookCommand)
    (h₁ : cmd.commandType = "send_only")
    (h₂ : (opMarkers.any fun k => pyContains k (toLowerStr cmd.command)) = true) :
    filterLoginSteps [waitCmd "login:", sendCmd "admin", waitCmd "Password:", sendCmd "secret",
        waitCmd "PROMPT", sendCmd "show version"] = [sendCmd "show version"] ∧
    filterStep (true, acc) cmd = (false, acc ++ [cmd]) ∧
    (∀ (acc' : List PlaybookCommand) (cmd' : PlaybookCommand),
      filterStep (false, acc') cmd' = (false, acc' ++ [cmd'])) ∧
    (∀ (cmds acc' : List PlaybookCommand),
      List.foldl filterStep (false, acc') cmds = (false, acc' ++ cmds)) := by
  refine ⟨by decide, ?_, filterStep_not_in_login, foldl_filterStep_not_in_login⟩
  have hne : cmd.command ≠ [] := opMarkers_contains_imp_ne_nil h₂
  have hty : cmd.commandType ≠ "wait_for_output" := by rw [h₁]; decide
  simp [filterStep, h₁, h₂, hne, hty]

/-- C8 witness: the marker-flip conjunct at the concrete step
`SEND "show version"` with an empty accumulator. -/
theorem filterLoginSteps_marker_flip_witness :
    filterStep (true, []) (sendCmd "show version") = (false, [] ++ [sendCmd "show version"]) :=
  (filterLoginSteps_marker_flip (sendCmd "show version") [] rfl (by decide)).2.1

/-- C10: a `wait_for_output` step with a non-empty command payload and
expected text exactly `"PROMPT"` is never dropped by `filter_login_steps`
(whatever the current `in_login_sequence` flag), it forces the flag to
false, and every step after it survives the rest of the walk. -/
theorem bare_prompt_wait_survives (flag : Bool) (acc : List PlaybookCommand)
    (cmd : PlaybookCommand) (post : List PlaybookCommand)
    (h₁ : cmd.commandType = "wait_for_output")
    (h₂ : cmd.command ≠ [])
    (h₃ : cmd.expectedText = some (str "PROMPT")) :
    filterStep (flag, acc) cmd = (false, acc ++ [cmd]) ∧
    List.foldl filterStep (filterStep (flag, acc) cmd) post = (false, (acc ++ [cmd]) ++ post) := by
  have hstep : filterStep (flag, acc) cmd = (false, acc ++ [cmd]) := by
    cases flag with
    | false => exact filterStep_not_in_login acc cmd
    | true => simp [filterStep, h₁, h₂, h₃]
  exact ⟨hstep, by rw [hstep]; exact foldl_filterStep_not_in_login post (acc ++ [cmd])⟩

/-! ## Claim C2 -/

theorem waitLoop_timeout (actual : Str) (dp : Option Str) (ce pg : Bool) (pf : Str → Bool) :
    ∀ (chunks : List Str) (buffer newOutput : Str),
      (ce = true → pyContains actual (buffer ++ chunks.flatten) = false) →
      pyContains actual (newOutput ++ chunks.flatten) = false →
      waitLoop actual dp ce pg pf buffer newOutput chunks =
        { found := false
          captured :=
            if newOutput ++ chunks.flatten = [] then buffer else newOutput ++ chunks.flatten
          buffer := [] } := by
  intro chunks
  induction chunks with
  | nil =>
    intro buffer newOutput _ _
    by_cases hno : newOutput = [] <;> simp [waitLoop, hno]
  | cons c rest ih =>
    intro buffer newOutput h1 h2
    rw [List.flatten_cons] at h2 ⊢
    have h1' : ce = true → pyContains actual ((buffer ++ c) ++ rest.flatten) = false := by
      intro hce
      have hflat := h1 hce
      rw [List.flatten_cons] at hflat
      rw [List.append_assoc]
      exact hflat
    have h2' : pyContains actual ((newOutput ++ c) ++ rest.flatten) = false := by
      rw [List.append_assoc]; exact h2
    have hbc : ce = true → pyContains actual (buffer ++ c) = false := by
      intro hce
      cases hb : pyContains actual (buffer ++ c) with
      | false => rfl
      | true =>
        have ht := pyContains_append_right rest.flatten hb
        rw [h1' hce] at ht
        simp at ht
    have hnc : pyContains actual (newOutput ++ c) = false := by
      cases hb : pyContains actual (newOutput ++ c) with
      | false => rfl
      | true =>
        have ht := pyContains_append_right rest.flatten hb
        rw [h2'] at ht
        simp at ht
    have hrec := ih (buffer ++ c) (newOutput ++ c) h1' h2'
    have hrhs :
        ({ found := false
           captured :=
             if (newOutput ++ c) ++ rest.flatten = [] then buffer ++ c
             else (newOutput ++ c) ++ rest.flatten
           buffer := [] } : WaitResult) =
        { found := false
          captured :=
            if newOutput ++ (c ++ rest.flatten) = [] then buffer
            else newOutput ++ (c ++ rest.flatten)
          buffer := [] } := by
      by_cases hz : newOutput ++ (c ++ rest.flatten) = []
      · rw [List.append_eq_nil, List.append_eq_nil] at hz
        obtain ⟨hn, hc, hr⟩ := hz
        simp [hn, hc, hr]
      · have hz' : ¬ (newOutput ++ c) ++ rest.flatten = [] := by
          rw [List.append_assoc]; exact hz
        simp only [if_neg hz, if_neg hz', List.append_assoc]
    have hsearch : pyContains actual (if ce then buffer ++ c else newOutput ++ c) = false := by
      cases ce with
      | true => simpa using hbc rfl
      | false => simpa using hnc
    cases hpag : (pg && pf (buffer ++ c)) with
    | true =>
      simp only [waitLoop, hpag, if_true]
      rw [hrec, hrhs]
    | false =>
      simp only [waitLoop, hpag, Bool.false_eq_true, if_false, hsearch]
      rw [hrec, hrhs]

/-- C2 counterexample: the claim fails on the code.  With
`check_existing_buffer = true`, expected text `"Hello"`, pre-existing
buffer `"hello!"` and an empty stream, the expected text never appears
(case-sensitively) in anything the call could read within the timeout, yet
the case-insensitive fast path returns `found = true` — not `false` — and
leaves `"!"` in the session buffer instead of clearing it. -/
theorem waitForOutput_cs_absent_found_cex :
    waitForOutput (str "Hello") none (str ">") true true true (fun _ => false)
      (str "hello!") [] =
      { found := true, captured := str "hello", buffer := str "!" } ∧
    pyContains (str "Hello") (str "hello!") = false ∧
    ([] : List Str).flatten = [] ∧
    str "!" ≠ [] := by
  refine ⟨by decide, by decide, by decide, by decide⟩

/-- C2 (amended): for every `wait_for_output` call whose expected text does
not appear case-sensitively in what the call actually searches before the
timeout — the prior buffer concatenated with the newly read bytes when
`check_existing_buffer` is true, the newly read bytes alone otherwise —
and which, when `check_existing_buffer` is true, also does not appear
case-insensitively in the pre-existing buffer (otherwise the fast path
returns `found = true` instead), the call returns `found = false` together
with the newly read bytes if any were read (otherwise the entire prior
buffer content), and the session buffer is completely empty immediately
after the call returns. -/
theorem waitForOutput_timeout_outcome (expected promptSymbol buffer : Str)
    (dp : Option Str) (ce hp pe : Bool) (pf : Str → Bool) (chunks : List Str)
    (hfast : ce = true → pyContains (toLowerStr (resolveExpected expected dp promptSymbol))
      (toLowerStr buffer) = false)
    (habs : ce = true → pyContains (resolveExpected expected dp promptSymbol)
      (buffer ++ chunks.flatten) = false)
    (habsNew : ce = false → pyContains (resolveExpected expected dp promptSymbol)
      chunks.flatten = false) :
    (waitForOutput expected dp promptSymbol ce hp pe pf buffer chunks).found = false ∧
    (waitForOutput expected dp promptSymbol ce hp pe pf buffer chunks).buffer = [] ∧
    (waitForOutput expected dp promptSymbol ce hp pe pf buffer chunks).captured =
      if chunks.flatten = [] then buffer else chunks.flatten := by
  have hflat : pyContains (resolveExpected expected dp promptSymbol) chunks.flatten = false := by
    cases ce with
    | true =>
      cases hh : pyContains (resolveExpected expected dp promptSymbol) chunks.flatten with
      | false => rfl
      | true =>
        have ht := pyContains_append_left buffer hh
        rw [habs rfl] at ht
        simp at ht
    | false => exact habsNew rfl
  have hfb : (ce && pyContains (toLowerStr (resolveExpected expected dp promptSymbol))
      (toLowerStr buffer)) = false := by
    cases ce with
    | true => simp [hfast rfl]
    | false => simp
  have hloop := waitLoop_timeout (resolveExpected expected dp promptSymbol) dp ce (hp && pe) pf
    chunks buffer [] habs (by simpa using hflat)
  simp only [waitForOutput, hfb, Bool.false_eq_true, if_false]
  rw [hloop]
  simp

/-- C2 witness: the scenario the original confirmation could not reach —
`check_existing_buffer = false`, expected `"Hello"` absent case-sensitively
from the stream although `"hello"` arrives; the call times out, returns the
newly read bytes, and the buffer is cleared. -/
theorem waitForOutput_timeout_outcome_witness :
    (waitForOutput (str "Hello") none (str ">") false true true (fun _ => false) (str "x")
      [str "hello"]).found = false ∧
    (waitForOutput (str "Hello") none (str ">") false true true (fun _ => false) (str "x")
      [str "hello"]).buffer = [] ∧
    (waitForOutput (str "Hello") none (str ">") false true true (fun _ => false) (str "x")
      [str "hello"]).captured =
      if ([str "hello"] : List Str).flatten = [] then str "x"
      else ([str "hello"] : List Str).flatten :=
  waitForOutput_timeout_outcome (str "Hello") (str ">") (str "x") none false true true
    (fun _ => false) [str "hello"] (by decide) (by decide) (by decide)

/-! ## Claim C1 -/

/-- C1 counterexample: on the pre-existing-buffer fast path the match is
NOT the last occurrence even when the resolved expected text is the prompt.
With fallback symbol `>` (resolved from the `PROMPT` sentinel) and buffer
`"a>b>"`, the last occurrence of `>` starts at index 3 (so the claimed
capture would be all of `"a>b>"`), but the code captures only `"a>"` — the
first occurrence. -/
theorem waitForOutput_fast_path_first_occurrence_cex :
    waitForOutput (str "PROMPT") none (str ">") true true true (fun _ => false) (str "a>b>") [] =
      { found := true, captured := str "a>", buffer := str "b>" } ∧
    resolveExpected (str "PROMPT") none (str ">") = str ">" ∧
    (occ (str ">") (str "a>b>")).getLast?.getD 0 = 3 ∧
    (str "a>").length ≠ 3 + (str ">").length := by
  refine ⟨by decide, by decide, by decide, by decide⟩

/-- C1 (amended): at any poll iteration where pagination does not fire and
the expected text occurs in the search target, the occurrence matched is
the last one when the expected text is `>` or the detected prompt and the
first one otherwise, and the captured output is everything up to and
including that occurrence.  On the `check_existing_buffer` polling path the
buffer is advanced exactly past the matched occurrence; on the
new-data-only path the buffer is instead advanced past the first (resp.
last, for prompts) occurrence of the text in the FULL buffer, which can lie
before the matched occurrence and then leaves it in the buffer.  On the
pre-existing-buffer fast path the matched occurrence is always the first
(case-insensitive) one, even for the prompt. -/
theorem waitForOutput_occurrence_policy (actual : Str) (dp : Option Str) (pg : Bool)
    (pf : Str → Bool) :
    (∀ (buffer newOutput c : Str) (rest : List Str),
      (pg && pf (buffer ++ c)) = false →
      pyContains actual (buffer ++ c) = true →
      waitLoop actual dp true pg pf buffer newOutput (c :: rest) =
        { found := true
          captured := (buffer ++ c).take
            ((if isPromptExpected actual dp then (occ actual (buffer ++ c)).getLast?.getD 0
              else (occ actual (buffer ++ c)).head?.getD 0) + actual.length)
          buffer := (buffer ++ c).drop
            ((if isPromptExpected actual dp then (occ actual (buffer ++ c)).getLast?.getD 0
              else (occ actual (buffer ++ c)).head?.getD 0) + actual.length) }) ∧
    (∀ (buffer newOutput c : Str) (rest : List Str),
      (pg && pf (buffer ++ c)) = false →
      pyContains actual (newOutput ++ c) = true →
      pyContains actual (buffer ++ c) = true →
      actual ≠ [] →
      waitLoop actual dp false pg pf buffer newOutput (c :: rest) =
        { found := true
          captured := (newOutput ++ c).take
            ((if isPromptExpected actual dp then (occ actual (newOutput ++ c)).getLast?.getD 0
              else (occ actual (newOutput ++ c)).head?.getD 0) + actual.length)
          buffer := (buffer ++ c).drop
            ((if isPromptExpected actual dp then (occ actual (buffer ++ c)).getLast?.getD 0
              else (occ actual (buffer ++ c)).head?.getD 0) + actual.length) }) ∧
    (∀ (expected promptSymbol buffer : Str) (hp pe : Bool) (chunks : List Str),
      pyContains (toLowerStr (resolveExpected expected dp promptSymbol))
        (toLowerStr buffer) = true →
      waitForOutput expected dp promptSymbol true hp pe pf buffer chunks =
        { found := true
          captured := buffer.take
            ((occ (toLowerStr (resolveExpected expected dp promptSymbol))
              (toLowerStr buffer)).head?.getD 0 +
             (resolveExpected expected dp promptSymbol).length)
          buffer := buffer.drop
            ((occ (toLowerStr (resolveExpected expected dp promptSymbol))
              (toLowerStr buffer)).head?.getD 0 +
             (resolveExpected expected dp promptSymbol).length) }) := by
  refine ⟨?_, ?_, ?_⟩
  · intro buffer newOutput c rest hpag hc
    simp only [waitLoop, hpag, Bool.false_eq_true, if_false, if_true, hc, pyLast, pyFirst]
  · intro buffer newOutput c rest hpag hc hcb hne
    have hlen : 0 < actual.length := List.length_pos.mpr hne
    simp only [waitLoop, hpag, Bool.false_eq_true, if_false, hc, if_true,
      pyLast, pyFirst]
    rw [pyRfindInt_of_contains hcb, pyFindInt_of_contains hcb]
    cases hpe : isPromptExpected actual dp with
    | true =>
      simp only [if_true, Bool.true_eq_false, if_false]
      have hcast : (((occ actual (buffer ++ c)).getLast?.getD 0 : Nat) : Int) + actual.length =
          (((occ actual (buffer ++ c)).getLast?.getD 0 + actual.length : Nat) : Int) := by
        push_cast
        ring
      rw [hcast]
      have hpos : (0 : Int) <
          (((occ actual (buffer ++ c)).getLast?.getD 0 + actual.length : Nat) : Int) :=
        Int.natCast_pos.mpr (by omega)
      rw [if_pos hpos, Int.toNat_natCast]
    | false =>
      simp only [Bool.false_eq_true, if_false]
      have hcast : (((occ actual (buffer ++ c)).head?.getD 0 : Nat) : Int) + actual.length =
          (((occ actual (buffer ++ c)).head?.getD 0 + actual.length : Nat) : Int) := by
        push_cast
        ring
      rw [hcast]
      have hpos : (0 : Int) <
          (((occ actual (buffer ++ c)).head?.getD 0 + actual.length : Nat) : Int) :=
        Int.natCast_pos.mpr (by omega)
      rw [if_pos hpos, Int.toNat_natCast]
  · intro expected promptSymbol buffer hp pe chunks hci
    simp only [waitForOutput, hci, Bool.and_true, pyFirst]
    split
    · rfl
    · simp_all

/-- C1 witness: the conjuncts of `waitForOutput_occurrence_policy`
instantiated — the pre-existing-buffer polling path with prompt `>` over
`"a" ++ ">b>"` captures through the LAST occurrence (`"a>b>"`); the
new-data-only path with prompt `>` over chunk `"x>y>"` captures `"x>y>"`;
the new-data-only path with non-prompt text `"X"`, prior buffer `"X"` and
chunk `"aXb"` captures `"aX"` but leaves `"aXb"` in the buffer (the
full-buffer re-find consumes only the earlier occurrence, so the matched
one stays); and the fast path over buffer `"A>b>"` stops at the FIRST
occurrence (`"A>"`). -/
theorem waitForOutput_occurrence_policy_witness :
    waitLoop (str ">") none true false (fun _ => false) (str "a") [] [str ">b>"] =
      { found := true, captured := str "a>b>", buffer := [] } ∧
    waitLoop (str ">") none false false (fun _ => false) (str "pre") [] [str "x>y>"] =
      { found := true, captured := str "x>y>", buffer := [] } ∧
    waitLoop (str "X") none false false (fun _ => false) (str "X") [] [str "aXb"] =
      { found := true, captured := str "aX", buffer := str "aXb" } ∧
    waitForOutput (str "PROMPT") none (str ">") true false false (fun _ => false)
      (str "A>b>") [str "zz"] =
      { found := true, captured := str "A>", buffer := str "b>" } := by
  have h := waitForOutput_occurrence_policy (str ">") none false (fun _ => false)
  have hX := waitForOutput_occurrence_policy (str "X") none false (fun _ => false)
  refine ⟨?_, ?_, ?_, ?_⟩
  · exact (h.1 (str "a") [] (str ">b>") [] (by decide) (by decide)).trans (by decide)
  · exact (h.2.1 (str "pre") [] (str "x>y>") [] (by decide) (by decide) (by decide)
      (by decide)).trans (by decide)
  · exact (hX.2.1 (str "X") [] (str "aXb") [] (by decide) (by decide) (by decide)
      (by decide)).trans (by decide)
  · exact (h.2.2 (str "PROMPT") (str ">") (str "A>b>") false false [str "zz"]
      (by decide)).trans (by decide)

/-! ## Claim C3 -/

/-- C3 counterexample: the pre-existing-buffer search is case-insensitive
for EVERY expected text, not only for login-style prompts.  `"Hello"` is
not a login prompt and does not occur case-sensitively in `"hello world"`,
yet the fast path matches it (case-insensitively) and returns immediately. -/
theorem waitForOutput_fast_path_case_cex :
    waitForOutput (str "Hello") none (str ">") true true true (fun _ => false)
      (str "hello world") [] =
      { found := true, captured := str "hello", buffer := str " world" } ∧
    pyContains (str "Hello") (str "hello world") = false ∧
    pyContains (str "login:") (toLowerStr (str "Hello")) = false ∧
    pyContains (str "username:") (toLowerStr (str "Hello")) = false := by
  refine ⟨by decide, by decide, by decide, by decide⟩

/-- C3 (amended): when `check_existing_buffer` is true, `wait_for_output`
searches the current unconsumed buffer first, case-insensitively for every
expected text (login-style or not); if the lowered text occurs in the
lowered buffer, the call returns `found = true` immediately with the match
consumed from the buffer, independently of whatever the transport would
deliver (no transport I/O, no timeout consumed). -/
theorem waitForOutput_existing_buffer_case_insensitive (expected promptSymbol buffer : Str)
    (dp : Option Str) (hp pe : Bool) (pf : Str → Bool)
    (hci : pyContains (toLowerStr (resolveExpected expected dp promptSymbol))
      (toLowerStr buffer) = true) :
    ∀ chunks : List Str,
      waitForOutput expected dp promptSymbol true hp pe pf buffer chunks =
        { found := true
          captured := buffer.take
            ((occ (toLowerStr (resolveExpected expected dp promptSymbol))
              (toLowerStr buffer)).head?.getD 0 +
             (resolveExpected expected dp promptSymbol).length)
          buffer := buffer.drop
            ((occ (toLowerStr (resolveExpected expected dp promptSymbol))
              (toLowerStr buffer)).head?.getD 0 +
             (resolveExpected expected dp promptSymbol).length) } := by
  intro chunks
  simp only [waitForOutput, hci, Bool.and_true, pyFirst]
  split
  · rfl
  · simp_all

/-- C3 witness: expected text `"HELLO"` found case-insensitively in buffer
`"say hello."`; the result ignores the pending chunk entirely. -/
theorem waitForOutput_existing_buffer_case_insensitive_witness :
    waitForOutput (str "HELLO") none (str ">") true true true (fun _ => false)
      (str "say hello.") [str "more"] =
      { found := true
        captured := (str "say hello.").take
          ((occ (toLowerStr (resolveExpected (str "HELLO") none (str ">")))
            (toLowerStr (str "say hello."))).head?.getD 0 +
           (resolveExpected (str "HELLO") none (str ">")).length)
        buffer := (str "say hello.").drop
          ((occ (toLowerStr (resolveExpected (str "HELLO") none (str ">")))
            (toLowerStr (str "say hello."))).head?.getD 0 +
           (resolveExpected (str "HELLO") none (str ">")).length) } :=
  waitForOutput_existing_buffer_case_insensitive (str "HELLO") (str ">") (str "say hello.")
    none true true (fun _ => false) (by decide) [str "more"]

/-- C10 witness: the combined send-and-wait step `show version` followed by
a further send, filtered from the login phase: both survive. -/
theorem bare_prompt_wait_survives_witness :
    filterStep (true, []) (bareCmd "show version") = (false, [] ++ [bareCmd "show version"]) ∧
    List.foldl filterStep (filterStep (true, []) (bareCmd "show version")) [sendCmd "exit"] =
      (false, ([] ++ [bareCmd "show version"]) ++ [sendCmd "exit"]) :=
  bare_prompt_wait_survives true [] (bareCmd "show version") [sendCmd "exit"]
    rfl (by decide) rfl
